import Mathlib

/-!
# Verification of the Consulting-Report-Auto-Factory analysis pipeline

Shallow embedding of the parts of `consulting_auto_factory` that the
specification's claims are about:

* `data_loader.py`   — type inference (`infer_dtype`), role assignment,
  CSV loading and input-file provenance (`summarize_input_files`);
* `models.py`        — the pydantic data model (`AnalysisResult`, `KPI`, …)
  together with pydantic v2 attribute-assignment semantics;
* `analysis_tools_v2.py` — the deterministic analysis tools
  (`compute_revenue_summary`, `analyze_top_categories`,
  `calculate_churn_metrics`, …);
* `agents/data_analyst_agent.py` — tool dispatch (`_execute_tool`), the
  bounded tool-calling loop and the fact-conversion step of
  `_tool_mode_analysis`;
* `agents/qa_agent.py` — the Q&A responder (`answer_question`).

Modelling conventions: pandas cell values are rationals, strings, booleans
or missing (`Option`); Python floats are rationals plus an explicit `nan`;
Python dictionaries are association lists in insertion order; the LLM
transport is an arbitrary function supplied as a parameter.  Python
exceptions are modelled with `Except`.
-/

/- The arithmetic on ℚ must evaluate inside `decide`/`rfl` proofs on the
concrete inputs of the testable properties; the default reducibility of
the core rational operations prevents that. -/
attribute [local semireducible] Rat.mul Rat.add Rat.sub Rat.inv

namespace CAF

/-- A Python float: a rational value or NaN (the only non-finite value the
pipeline produces, via means/medians of empty series). -/
inductive PyFloat where
  | val (q : ℚ)
  | nan
  deriving DecidableEq, Repr

/-- A JSON-serializable Python value as produced by the analysis tools:
scalars, lists and string-keyed dictionaries (association lists kept in
insertion order, as Python dicts are). -/
inductive Py where
  | float (x : PyFloat)
  | int (n : Int)
  | str (s : String)
  | bool (b : Bool)
  | null
  | list (xs : List Py)
  | dict (kvs : List (String × Py))

/-- A Python dictionary with string keys. -/
abbrev PyDict := List (String × Py)

/-- `"error" in result` — the error-key test used by the engine. -/
def hasError (d : PyDict) : Bool :=
  (d.lookup "error").isSome

/-- A non-null pandas cell value. -/
inductive Val where
  | str (s : String)
  | num (q : ℚ)
  | bool (b : Bool)
  deriving DecidableEq, Repr

/-- A pandas cell: a value or missing (NaN / None). -/
abbrev Cell := Option Val

/-- The pandas dtype classes that `infer_dtype` branches on:
`is_datetime64_any_dtype`, `is_numeric_dtype`, `is_object_dtype`, and
everything else (e.g. pandas Categorical). -/
inductive PandasDtype where
  | datetime
  | numeric
  | object
  | other
  deriving DecidableEq, Repr

/-- A pandas Series: its dtype class and its cells. -/
structure Series where
  dtype : PandasDtype
  values : List Cell
  deriving DecidableEq, Repr

/-- `series.nunique()`: number of distinct non-null values. -/
def nuniqueS (s : Series) : Nat :=
  ((s.values.filterMap id).dedup).length

/-- A pandas DataFrame, column-oriented: a list of (column name, cells)
in column order.  All columns of a well-formed frame have equal length. -/
structure DataFrame where
  cols : List (String × List Cell)

/-- `column in df.columns`. -/
def DataFrame.hasCol (df : DataFrame) (c : String) : Bool :=
  (df.cols.map Prod.fst).contains c

/-- `df[c]` (empty when the column is absent; callers check `hasCol` first,
mirroring the source's membership guards). -/
def DataFrame.getCol (df : DataFrame) (c : String) : List Cell :=
  (df.cols.lookup c).getD []

/-- `len(df)`: the row count (length of the first column; 0 for an empty
frame). -/
def DataFrame.nRows (df : DataFrame) : Nat :=
  ((df.cols.head?).map (fun p => p.2.length)).getD 0

/-- Substring test (`needle in hay` on Python strings). -/
def strContains (hay needle : String) : Bool :=
  hay.toList.tails.any (fun t => needle.toList.isPrefixOf t)

/-- ASCII lower-casing of one character (`str.lower()`; the pipeline's
column names are ASCII). -/
def lcChar (c : Char) : Char :=
  if 65 ≤ c.toNat ∧ c.toNat ≤ 90 then Char.ofNat (c.toNat + 32) else c

/-- `str.lower()`. -/
def strToLower (s : String) : String :=
  String.mk (s.toList.map lcChar)

/-- `str.endswith(suffix)`. -/
def strEndsWith (s suffix : String) : Bool :=
  suffix.toList.isSuffixOf s.toList

/-- `str.startswith(pre)`. -/
def strStartsWith (s pre : String) : Bool :=
  pre.toList.isPrefixOf s.toList

/-- Split a character list on a separator (Python `str.split(sep)`). -/
def splitOnChar (sep : Char) : List Char → List Char → List (List Char)
  | [], cur => [cur.reverse]
  | c :: cs, cur =>
      if c = sep then cur.reverse :: splitOnChar sep cs []
      else splitOnChar sep cs (c :: cur)

/-- `s.split(sep)` on strings. -/
def strSplitOn (s : String) (sep : Char) : List String :=
  (splitOnChar sep s.toList []).map String.mk

/-- Python's whitespace characters for `str.strip()` (ASCII subset; the
pipeline never feeds non-ASCII whitespace). -/
def pyIsSpace (c : Char) : Bool :=
  c = ' ' ∨ c = '\t' ∨ c = '\n' ∨ c = '\r' ∨ c = '\x0b' ∨ c = '\x0c'

/-- Python `str.strip()`. -/
def pyStrip (s : String) : String :=
  String.mk (((s.toList.dropWhile pyIsSpace).reverse.dropWhile pyIsSpace).reverse)

/-! ## Sorting helpers (pandas `nlargest` / ascending sorts) -/

/-- Insert into a list sorted descending by `key`, keeping earlier
elements first among ties (pandas `nlargest(keep='first')`). -/
def insertDescBy (key : α → ℚ) (x : α) : List α → List α
  | [] => [x]
  | y :: ys => if key y ≤ key x then x :: y :: ys else y :: insertDescBy key x ys

/-- Stable insertion sort, descending by `key`. -/
def sortDescBy (key : α → ℚ) : List α → List α
  | [] => []
  | x :: xs => insertDescBy key x (sortDescBy key xs)

/-- Insert into a list sorted ascending by `key`. -/
def insertAscBy (key : α → ℚ) (x : α) : List α → List α
  | [] => [x]
  | y :: ys => if key x ≤ key y then x :: y :: ys else y :: insertAscBy key x ys

/-- Stable insertion sort, ascending by `key`. -/
def sortAscBy (key : α → ℚ) : List α → List α
  | [] => []
  | x :: xs => insertAscBy key x (sortAscBy key xs)

/-! ## models.py — the pydantic data model -/

/-- `models.PlanStep`. -/
structure PlanStep where
  id : String
  description : String
  required_columns : Option (List String)
  output_type : String

/-- `models.AnalysisPlan`. -/
structure AnalysisPlan where
  title : String
  objectives : List String
  steps : List PlanStep

/-- `models.KPI` (`value` is a Python float). -/
structure KPI where
  name : String
  value : PyFloat
  explanation : String
  related_columns : List String

/-- `models.NamedTable` (row cells are scalar Python values). -/
structure NamedTable where
  title : String
  columns : List String
  rows : List (List Py)
  description : Option String

/-- `models.ChartInfo`. -/
structure ChartInfo where
  title : String
  chart_type : String
  filename : String
  description : Option String

/-- `models.InputFileProfile`. -/
structure InputFileProfile where
  filename : String
  rows : Nat
  columns : Nat
  sha256 : String

/-- `models.RunMetadata`. -/
structure RunMetadata where
  run_timestamp : String
  model : String
  temperature : ℚ
  input_files : List InputFileProfile

/-- `models.AnalysisResult`: the declared pydantic fields are exactly
`plan`, `kpis`, `tables`, `charts`, `notes`, `metadata` — models.py
declares no `column_roles` field (and no `ColumnRole` class). -/
structure AnalysisResult where
  plan : AnalysisPlan
  kpis : List KPI
  tables : List NamedTable
  charts : List ChartInfo
  notes : Option String
  metadata : Option RunMetadata

/-- The field names `models.AnalysisResult` declares, in declaration
order. -/
def analysisResultFields : List String :=
  ["plan", "kpis", "tables", "charts", "notes", "metadata"]

/-- The classes `models.py` defines.  `ColumnRole` is absent although
`data_loader.py` and the agents import it from this module. -/
def modelsPyClasses : List String :=
  ["PlanStep", "AnalysisPlan", "KPI", "NamedTable", "ChartInfo",
   "AnalysisResult", "InputFileProfile", "RunMetadata"]

/-- pydantic v2 `BaseModel.__setattr__`: assigning an attribute that is
not a declared field raises `ValueError` (none of the models sets
`model_config` with `extra="allow"`). -/
def pydanticSetattr (className : String) (declaredFields : List String)
    (attr : String) : Except String Unit :=
  if declaredFields.contains attr then Except.ok ()
  else Except.error ("\"" ++ className ++ "\" object has no field \"" ++ attr ++ "\"")

/-- The attribute assignment `analysis_result.column_roles = column_roles`
performed by `orchestrator.run_pipeline` before serialization. -/
def runPipelineStoreColumnRoles : Except String Unit :=
  pydanticSetattr "AnalysisResult" analysisResultFields "column_roles"

/-! model_dump serialization (pydantic `model_dump()` emits exactly the
declared fields, in declaration order) -/

/-- `model_dump` of a `PlanStep`. -/
def planStepDump (s : PlanStep) : Py :=
  Py.dict [("id", Py.str s.id),
           ("description", Py.str s.description),
           ("required_columns",
             match s.required_columns with
             | some cs => Py.list (cs.map Py.str)
             | Option.none => Py.null),
           ("output_type", Py.str s.output_type)]

/-- `model_dump` of an `AnalysisPlan`. -/
def analysisPlanDump (p : AnalysisPlan) : Py :=
  Py.dict [("title", Py.str p.title),
           ("objectives", Py.list (p.objectives.map Py.str)),
           ("steps", Py.list (p.steps.map planStepDump))]

/-- `model_dump` of a `KPI`. -/
def kpiDump (k : KPI) : Py :=
  Py.dict [("name", Py.str k.name),
           ("value", Py.float k.value),
           ("explanation", Py.str k.explanation),
           ("related_columns", Py.list (k.related_columns.map Py.str))]

/-- `model_dump` of a `NamedTable`. -/
def namedTableDump (t : NamedTable) : Py :=
  Py.dict [("title", Py.str t.title),
           ("columns", Py.list (t.columns.map Py.str)),
           ("rows", Py.list (t.rows.map Py.list)),
           ("description",
             match t.description with
             | some d => Py.str d
             | Option.none => Py.null)]

/-- `model_dump` of a `ChartInfo`. -/
def chartInfoDump (c : ChartInfo) : Py :=
  Py.dict [("title", Py.str c.title),
           ("chart_type", Py.str c.chart_type),
           ("filename", Py.str c.filename),
           ("description",
             match c.description with
             | some d => Py.str d
             | Option.none => Py.null)]

/-- `model_dump` of an `InputFileProfile`. -/
def inputFileProfileDump (p : InputFileProfile) : Py :=
  Py.dict [("filename", Py.str p.filename),
           ("rows", Py.int p.rows),
           ("columns", Py.int p.columns),
           ("sha256", Py.str p.sha256)]

/-- `model_dump` of a `RunMetadata`. -/
def runMetadataDump (m : RunMetadata) : Py :=
  Py.dict [("run_timestamp", Py.str m.run_timestamp),
           ("model", Py.str m.model),
           ("temperature", Py.float (PyFloat.val m.temperature)),
           ("input_files", Py.list (m.input_files.map inputFileProfileDump))]

/-- `analysis_result.model_dump()`: the dictionary that
`orchestrator.run_pipeline` serializes into `analysis_summary.json`.
Its keys are exactly the declared fields of `AnalysisResult`. -/
def analysisResultModelDump (r : AnalysisResult) : PyDict :=
  [("plan", analysisPlanDump r.plan),
   ("kpis", Py.list (r.kpis.map kpiDump)),
   ("tables", Py.list (r.tables.map namedTableDump)),
   ("charts", Py.list (r.charts.map chartInfoDump)),
   ("notes",
     match r.notes with
     | some s => Py.str s
     | Option.none => Py.null),
   ("metadata",
     match r.metadata with
     | some m => runMetadataDump m
     | Option.none => Py.null)]

/-! ## data_loader.py -/

/-- `data_loader.infer_dtype(series, column_name)`: per-column type
inference.  `0.9` is the exact rational 9/10 here; the source compares
Python floats, which agrees on every ratio the claims exercise. -/
def infer_dtype (series : Series) (column_name : String) : String :=
  if series.dtype = PandasDtype.datetime then "datetime"
  else
    let col_lower := strToLower column_name
    let unique_ratio : ℚ :=
      if series.values.length > 0 then
        (nuniqueS series : ℚ) / (series.values.length : ℚ)
      else 0
    if series.dtype = PandasDtype.numeric then
      if nuniqueS series ≤ 2 then "categorical"
      else if unique_ratio > 9/10 ∨ strContains col_lower "_id" = true ∨
              strEndsWith col_lower "id" = true then "text"
      else "numeric"
    else if series.dtype = PandasDtype.object then
      if unique_ratio > 9/10 ∨ strContains col_lower "_id" = true ∨
         strEndsWith col_lower "id" = true then "text"
      else if nuniqueS series > 50 then "text"
      else "categorical"
    else "categorical"

/-- The identifier-name test the spec describes: the lower-cased column
name contains `_id` or ends with `id`. -/
def isIdName (column_name : String) : Bool :=
  strContains (strToLower column_name) "_id" ||
  strEndsWith (strToLower column_name) "id"

/-- `data_loader.assign_column_role`: deterministic role from dtype. -/
def assign_column_role (dtype : String) : String :=
  if dtype = "datetime" then "time"
  else if dtype = "numeric" then "measure"
  else if dtype = "categorical" then "dimension"
  else "text"

/-- Modelled from the spec: `models.py` imports define no `ColumnRole`
class although `data_loader.py` and the agents import one from it; the
spec (§3) describes ColumnRole as the per-column record derived 1:1 from
the inferred type, and `data_loader.assign_all_roles` constructs it with
fields `column_name`, `role`, `dtype`. -/
structure ColumnRole where
  column_name : String
  role : String
  dtype : String

/-- The bytes of a file on disk. -/
abbrev Bytes := List Nat

/-- The input directory: file names with their on-disk bytes.  The
filesystem is taken as immutable for the duration of a run (the pipeline
is single-threaded and never writes to the input directory). -/
structure FileSystem where
  files : List (String × Bytes)

/-- The dataframes `data_loader.load_csvs` builds: every `*.csv` file of
the directory, parsed (the CSV parser is a parameter — its output shape
is irrelevant to the provenance claim). -/
def loadList (parse : Bytes → DataFrame) (fs : FileSystem) :
    List (String × DataFrame) :=
  fs.files.filterMap (fun p =>
    if strEndsWith p.1 ".csv" then some (p.1, parse p.2) else Option.none)

/-- `data_loader.load_csvs`: raises `FileNotFoundError` when the
directory holds no CSV files. -/
def load_csvs (parse : Bytes → DataFrame) (fs : FileSystem) :
    Except String (List (String × DataFrame)) :=
  let dfs := loadList parse fs
  if dfs.isEmpty then Except.error "No CSV files found" else Except.ok dfs

/-- `data_loader.summarize_input_files`: one profile per loaded
dataframe, hashing the file's on-disk bytes (empty digest when the file
no longer exists).  The digest function (`hashlib.sha256`) is a
parameter. -/
def summarize_input_files (sha256 : Bytes → String)
    (dataframes : List (String × DataFrame)) (fs : FileSystem) :
    List InputFileProfile :=
  dataframes.map (fun p =>
    match fs.files.lookup p.1 with
    | some b => ⟨p.1, p.2.nRows, p.2.cols.length, sha256 b⟩
    | Option.none => ⟨p.1, p.2.nRows, p.2.cols.length, ""⟩)

/-! ## analysis_tools_v2.py — the deterministic tool catalog -/

/-- `pd.to_numeric(..., errors='coerce')` on one parseable decimal
literal (optional sign, digits, optional fraction; exponents and
special floats are not produced by the pipeline's data and are treated
as unparseable). -/
def digitsToNat (cs : List Char) : Nat :=
  cs.foldl (fun n c => n * 10 + (c.toNat - 48)) 0

/-- Parse a Python numeric string: `strip`, optional sign, digits with an
optional single decimal point. -/
def parseNumericString (s : String) : Option ℚ :=
  let t := pyStrip s
  let sign : ℚ := if strStartsWith t "-" then -1 else 1
  let body :=
    if strStartsWith t "-" ∨ strStartsWith t "+" then String.mk (t.toList.drop 1)
    else t
  match strSplitOn body '.' with
  | [a] =>
      if a.length > 0 ∧ a.toList.all Char.isDigit then
        some (sign * (digitsToNat a.toList : ℚ))
      else Option.none
  | [a, b] =>
      if a.length + b.length > 0 ∧ a.toList.all Char.isDigit ∧
         b.toList.all Char.isDigit then
        some (sign * ((digitsToNat a.toList : ℚ) +
              (digitsToNat b.toList : ℚ) / (10 : ℚ) ^ b.length))
      else Option.none
  | _ => Option.none

/-- `pd.to_numeric(series, errors='coerce').dropna()`: numbers stay,
booleans coerce to 1/0, parseable strings are parsed, everything else
(missing cells, non-numeric strings) becomes NaN and is dropped. -/
def toNumericDropna (cells : List Cell) : List ℚ :=
  cells.filterMap (fun c =>
    match c with
    | Option.none => Option.none
    | some (Val.num q) => some q
    | some (Val.bool b) => some (if b then 1 else 0)
    | some (Val.str s) => parseNumericString s)

/-- `float(series.mean())`: NaN on an empty series. -/
def pyMean (l : List ℚ) : PyFloat :=
  if l.isEmpty then PyFloat.nan else PyFloat.val (l.sum / l.length)

/-- `float(series.median())`: NaN on an empty series, else the middle of
the ascending sort (average of the two middles for even length). -/
def pyMedian (l : List ℚ) : PyFloat :=
  if l.isEmpty then PyFloat.nan
  else
    let s := sortAscBy id l
    if l.length % 2 = 1 then PyFloat.val (s.getD (l.length / 2) 0)
    else PyFloat.val ((s.getD (l.length / 2 - 1) 0 + s.getD (l.length / 2) 0) / 2)

/-- `float(series.min())`: NaN on an empty series. -/
def pyMinimum (l : List ℚ) : PyFloat :=
  match l with
  | [] => PyFloat.nan
  | x :: xs => PyFloat.val (xs.foldl min x)

/-- `float(series.max())`: NaN on an empty series. -/
def pyMaximum (l : List ℚ) : PyFloat :=
  match l with
  | [] => PyFloat.nan
  | x :: xs => PyFloat.val (xs.foldl max x)

/-- `analysis_tools_v2.compute_revenue_summary(df, amount_column)`.
`series.sum()` of an empty series is 0.0, so an all-unparseable column
yields total 0.0, NaN mean/median/min/max and count 0 — with no error
key. -/
def compute_revenue_summary (df : DataFrame) (amount_column : String) : PyDict :=
  if ¬ df.hasCol amount_column then
    [("error", Py.str ("Column '" ++ amount_column ++ "' not found in dataframe"))]
  else
    let revenue_data := toNumericDropna (df.getCol amount_column)
    [("total_revenue", Py.float (PyFloat.val revenue_data.sum)),
     ("average_revenue", Py.float (pyMean revenue_data)),
     ("median_revenue", Py.float (pyMedian revenue_data)),
     ("min_revenue", Py.float (pyMinimum revenue_data)),
     ("max_revenue", Py.float (pyMaximum revenue_data)),
     ("count", Py.int revenue_data.length)]

/-- The (category, metric) pairs `df.groupby(category)[metric]` operates
on: rows whose category cell is null are dropped by groupby. -/
def keptRows (df : DataFrame) (c m : String) : List (Val × Cell) :=
  ((df.getCol c).zip (df.getCol m)).filterMap (fun p =>
    match p.1 with
    | some v => some (v, p.2)
    | Option.none => Option.none)

/-- The contribution of one metric cell to a groupby sum (pandas sums
skip missing values, i.e. they contribute 0). -/
def cellNum (c : Cell) : ℚ :=
  match c with
  | some (Val.num q) => q
  | some (Val.bool b) => if b then 1 else 0
  | _ => 0

/-- A metric cell on which `float(...)` of the aggregate raises (a
string value): the tool's try/except turns this into an error dict. -/
def metricIsBad (c : Cell) : Bool :=
  match c with
  | some (Val.str _) => true
  | _ => false

/-- The distinct group keys, in first-occurrence order.  (pandas sorts
group keys ascending; the order only affects which of two equal totals
`nlargest` lists first, which no claim depends on.) -/
def groupKeys (df : DataFrame) (c m : String) : List Val :=
  ((keptRows df c m).map Prod.fst).eraseDups

/-- `df.groupby(c)[m].sum()` for one group key. -/
def groupTotal (df : DataFrame) (c m : String) (k : Val) : ℚ :=
  (((keptRows df c m).filter (fun r => decide (r.1 = k))).map
    (fun r => cellNum r.2)).sum

/-- Python `str(...)` of a group key (float repr is abstracted as the
rational's integer or fraction form; the claims only exercise string
keys). -/
def pyStrVal : Val → String
  | Val.str s => s
  | Val.bool b => if b then "True" else "False"
  | Val.num q => if q.den = 1 then toString q.num else toString q

/-- `df.groupby(c)[m].sum().nlargest(top_n)` rendered as (str(key),
total) pairs: group-by sum, sort descending by total, truncate. -/
def topCats (df : DataFrame) (c m : String) (top_n : Nat) :
    List (String × ℚ) :=
  (sortDescBy Prod.snd
    ((groupKeys df c m).map (fun k => (pyStrVal k, groupTotal df c m k)))).take top_n

/-- `analysis_tools_v2.analyze_top_categories(df, c, m, top_n)`. -/
def analyze_top_categories (df : DataFrame) (category_column metric_column : String)
    (top_n : Nat) : PyDict :=
  if ¬ df.hasCol category_column then
    [("error", Py.str ("Column '" ++ category_column ++ "' not found"))]
  else if ¬ df.hasCol metric_column then
    [("error", Py.str ("Column '" ++ metric_column ++ "' not found"))]
  else if (keptRows df category_column metric_column).any
            (fun r => metricIsBad r.2) then
    [("error", Py.str "could not convert string to float")]
  else
    [("top_categories",
      Py.list ((topCats df category_column metric_column top_n).map (fun p =>
        Py.dict [("category", Py.str p.1),
                 ("total", Py.float (PyFloat.val p.2))]))),
     ("category_column", Py.str category_column),
     ("metric_column", Py.str metric_column)]

/-- `series.astype(bool)` on one cell: Python truthiness; a missing cell
is float NaN, which is truthy. -/
def pyTruthyCell (c : Cell) : Bool :=
  match c with
  | Option.none => true
  | some (Val.num q) => decide (q ≠ 0)
  | some (Val.str s) => decide (s ≠ "")
  | some (Val.bool b) => b

/-- `analysis_tools_v2.calculate_churn_metrics(df, churn_column)`. -/
def calculate_churn_metrics (df : DataFrame) (churn_column : String) : PyDict :=
  if ¬ df.hasCol churn_column then
    [("error", Py.str ("Column '" ++ churn_column ++ "' not found"))]
  else
    let churn_data := (df.getCol churn_column).map pyTruthyCell
    let total := churn_data.length
    let churned := churn_data.count true
    [("total_customers", Py.int total),
     ("churned_customers", Py.int churned),
     ("active_customers", Py.int ((total : Int) - (churned : Int))),
     ("churn_rate",
      Py.float (PyFloat.val
        (if total > 0 then (churned : ℚ) / (total : ℚ) * 100 else 0)))]

/-- `analysis_tools_v2.calculate_customer_ltv(df, ltv_column)`. -/
def calculate_customer_ltv (df : DataFrame) (ltv_column : String) : PyDict :=
  if ¬ df.hasCol ltv_column then
    [("error", Py.str ("Column '" ++ ltv_column ++ "' not found"))]
  else
    let ltv_data := toNumericDropna (df.getCol ltv_column)
    [("average_ltv", Py.float (pyMean ltv_data)),
     ("median_ltv", Py.float (pyMedian ltv_data)),
     ("total_ltv", Py.float (PyFloat.val ltv_data.sum)),
     ("min_ltv", Py.float (pyMinimum ltv_data)),
     ("max_ltv", Py.float (pyMaximum ltv_data)),
     ("customer_count", Py.int ltv_data.length)]

/-- A calendar date (year, month, day). -/
structure YMD where
  y : Nat
  m : Nat
  d : Nat
  deriving DecidableEq, Repr

/-- Days in a month (Gregorian). -/
def daysInMonth (y m : Nat) : Nat :=
  if m = 2 then
    if y % 4 = 0 ∧ (y % 100 ≠ 0 ∨ y % 400 = 0) then 29 else 28
  else if m = 4 ∨ m = 6 ∨ m = 9 ∨ m = 11 then 30
  else 31

/-- Parse an ISO `yyyy-mm-dd` date string; `pd.to_datetime(...,
errors='coerce')` is modelled for this format only (the sample data's
format) — anything else is an unparseable date and its row is dropped. -/
def parseISODate (v : Val) : Option YMD :=
  match v with
  | Val.str s =>
    match strSplitOn s '-' with
    | [ys, ms, ds] =>
      if ys.length = 4 ∧ ys.toList.all Char.isDigit ∧
         ms.length > 0 ∧ ms.toList.all Char.isDigit ∧
         ds.length > 0 ∧ ds.toList.all Char.isDigit then
        let y := digitsToNat ys.toList
        let m := digitsToNat ms.toList
        let d := digitsToNat ds.toList
        if 1 ≤ m ∧ m ≤ 12 ∧ 1 ≤ d ∧ d ≤ daysInMonth y m then
          some ⟨y, m, d⟩
        else Option.none
      else Option.none
    | _ => Option.none
  | _ => Option.none

/-- Left-pad a number with zeros to two digits. -/
def pad2 (n : Nat) : String :=
  if n < 10 then "0" ++ toString n else toString n

/-- `str(date.date())`: ISO rendering of a date. -/
def isoDate (d : YMD) : String :=
  toString d.y ++ "-" ++ pad2 d.m ++ "-" ++ pad2 d.d

/-- The resample bucket key of a date: months for 'M', a strictly
monotone day index for 'D'. -/
def bucketKey (period : String) (d : YMD) : Nat :=
  if period = "M" then d.y * 12 + (d.m - 1)
  else d.y * 372 + (d.m - 1) * 31 + (d.d - 1)

/-- The label pandas gives a resample bucket: the month-end date for
'M', the day itself for 'D'. -/
def bucketLabel (period : String) (d : YMD) : String :=
  if period = "M" then isoDate ⟨d.y, d.m, daysInMonth d.y d.m⟩
  else isoDate d

/-- `analysis_tools_v2.compute_time_series(df, date_column,
metric_column, period)`.  Modelling notes: dates are ISO strings
(`parseISODate`); only the 'M' and 'D' period codes are modelled (any
other code is folded into the error branch); buckets are the observed
ones in ascending order — pandas would also emit empty intermediate
buckets with value 0, which no claim observes. -/
def compute_time_series (df : DataFrame) (date_column metric_column : String)
    (period : String) : PyDict :=
  if ¬ df.hasCol date_column then
    [("error", Py.str ("Column '" ++ date_column ++ "' not found"))]
  else if ¬ df.hasCol metric_column then
    [("error", Py.str ("Column '" ++ metric_column ++ "' not found"))]
  else if ¬ (period = "M" ∨ period = "D") then
    [("error", Py.str ("Unsupported period: " ++ period))]
  else
    let rows := ((df.getCol date_column).zip (df.getCol metric_column)).filterMap
      (fun p =>
        match p.1 with
        | some v => (parseISODate v).map (fun d => (d, p.2))
        | Option.none => Option.none)
    if rows.any (fun r => metricIsBad r.2) then
      [("error", Py.str "could not convert string to float")]
    else
      let dates := (rows.map (fun r => r.1)).eraseDups
      let buckets := sortAscBy (fun d => ((bucketKey period d : Nat) : ℚ))
        ((dates.map (fun d => bucketKey period d)).eraseDups.map
          (fun k => (rows.filter
            (fun r => decide (bucketKey period r.1 = k))).headD (⟨0,1,1⟩, Option.none) |>.1))
      [("time_series",
        Py.list (buckets.map (fun d =>
          Py.dict [("period", Py.str (bucketLabel period d)),
                   ("value", Py.float (PyFloat.val
                     ((rows.filter (fun r =>
                        decide (bucketKey period r.1 = bucketKey period d))).map
                          (fun r => cellNum r.2)).sum))]))),
       ("period_type", Py.str period),
       ("metric", Py.str metric_column)]

/-- A pandas cell rendered as a Python scalar (`tolist()`). -/
def valToPy : Val → Py
  | Val.str s => Py.str s
  | Val.num q => Py.float (PyFloat.val q)
  | Val.bool b => Py.bool b

/-- `analysis_tools_v2.get_dataframe_summary(df)`.  The per-column
pandas dtype string is not modelled (no claim observes it). -/
def get_dataframe_summary (df : DataFrame) : PyDict :=
  [("row_count", Py.int df.nRows),
   ("column_count", Py.int df.cols.length),
   ("columns",
    Py.list (df.cols.map (fun p =>
      Py.dict [("name", Py.str p.1),
               ("null_count", Py.int (p.2.count Option.none)),
               ("sample_values",
                Py.list (((p.2.filterMap id).take 3).map valToPy))])))]

/-- The tool names registered in `_execute_tool`'s `tool_functions`
table (equal to the catalog of `ANALYSIS_TOOLS`). -/
def toolNames : List String :=
  ["compute_revenue_summary", "analyze_top_categories",
   "calculate_churn_metrics", "compute_time_series",
   "calculate_customer_ltv", "get_dataframe_summary"]

/-! ## agents/data_analyst_agent.py -/

/-- `tool_input.get("dataframe_name", "")` followed by
`dataframes.get(df_name)`: a non-string name never matches a key. -/
def lookupDf (dataframes : List (String × DataFrame)) (key : Py) :
    Option DataFrame :=
  match key with
  | Py.str s => dataframes.lookup s
  | _ => Option.none

/-- Keyword names all belong to a tool's signature. -/
def argNamesAllowed (args : PyDict) (allowed : List String) : Bool :=
  args.all (fun p => allowed.contains p.1)

/-- A required string keyword argument. -/
def strArg (args : PyDict) (k : String) : Option String :=
  match args.lookup k with
  | some (Py.str s) => some s
  | _ => Option.none

/-- An optional non-negative integer keyword argument with a default
(`top_n=5`); `nlargest` of a negative count is empty, hence `toNat`. -/
def natArgD (args : PyDict) (k : String) (d : Nat) : Option Nat :=
  match args.lookup k with
  | Option.none => some d
  | some (Py.int n) => some n.toNat
  | _ => Option.none

/-- An optional string keyword argument with a default (`period='M'`). -/
def strArgD (args : PyDict) (k : String) (d : String) : Option String :=
  match args.lookup k with
  | Option.none => some d
  | some (Py.str s) => some s
  | _ => Option.none

/-- `func(df, **func_input)` for one registered tool.  `Except.error`
models a Python exception escaping the call (e.g. `TypeError` on an
unexpected or missing keyword); `_execute_tool`'s try/except catches it.
A keyword of the wrong type is folded into the same path — in Python it
would surface as the tool's own error dict instead; both are error
dictionaries at the tool boundary. -/
def callTool (tool_name : String) (df : DataFrame) (args : PyDict) :
    Except String PyDict :=
  match tool_name with
  | "compute_revenue_summary" =>
      if ¬ argNamesAllowed args ["amount_column"] then
        Except.error "unexpected keyword argument"
      else
        match strArg args "amount_column" with
        | some col => Except.ok (compute_revenue_summary df col)
        | Option.none => Except.error "missing required argument: amount_column"
  | "analyze_top_categories" =>
      if ¬ argNamesAllowed args ["category_column", "metric_column", "top_n"] then
        Except.error "unexpected keyword argument"
      else
        match strArg args "category_column", strArg args "metric_column",
              natArgD args "top_n" 5 with
        | some c, some m, some n => Except.ok (analyze_top_categories df c m n)
        | _, _, _ => Except.error "missing required argument"
  | "calculate_churn_metrics" =>
      if ¬ argNamesAllowed args ["churn_column"] then
        Except.error "unexpected keyword argument"
      else
        match strArg args "churn_column" with
        | some col => Except.ok (calculate_churn_metrics df col)
        | Option.none => Except.error "missing required argument: churn_column"
  | "compute_time_series" =>
      if ¬ argNamesAllowed args ["date_column", "metric_column", "period"] then
        Except.error "unexpected keyword argument"
      else
        match strArg args "date_column", strArg args "metric_column",
              strArgD args "period" "M" with
        | some dc, some mc, some p => Except.ok (compute_time_series df dc mc p)
        | _, _, _ => Except.error "missing required argument"
  | "calculate_customer_ltv" =>
      if ¬ argNamesAllowed args ["ltv_column"] then
        Except.error "unexpected keyword argument"
      else
        match strArg args "ltv_column" with
        | some col => Except.ok (calculate_customer_ltv df col)
        | Option.none => Except.error "missing required argument: ltv_column"
  | "get_dataframe_summary" =>
      if args.isEmpty then Except.ok (get_dataframe_summary df)
      else Except.error "unexpected keyword argument"
  | _ => Except.error "unreachable: unknown tools are rejected before the call"

/-- `DataAnalystAgent._execute_tool`: resolve the dataframe, resolve the
tool, call it with the remaining keywords under try/except.  Always
returns a dictionary — every failure mode yields an error dict, nothing
escapes the tool boundary. -/
def execute_tool (tool_name : String) (tool_input : PyDict)
    (dataframes : List (String × DataFrame)) : PyDict :=
  let dfKey := (tool_input.lookup "dataframe_name").getD (Py.str "")
  match lookupDf dataframes dfKey with
  | Option.none =>
      [("error", Py.str ("Dataframe not found. Available: " ++
        String.intercalate ", " (dataframes.map Prod.fst)))]
  | some df =>
      if ¬ toolNames.contains tool_name then
        [("error", Py.str ("Unknown tool: " ++ tool_name))]
      else
        let func_input := tool_input.filter
          (fun p => decide (p.1 ≠ "dataframe_name"))
        match callTool tool_name df func_input with
        | Except.ok d => d
        | Except.error e => [("error", Py.str ("Tool execution error: " ++ e))]

/-- One accumulated `{tool, input, result}` triple. -/
structure ToolCallRecord where
  tool : String
  input : PyDict
  result : PyDict

/-- A content block of a model response. -/
inductive ContentBlock where
  | text (s : String)
  | tool_use (id : String) (name : String) (input : PyDict)

/-- A model response: its stop reason and content blocks. -/
structure Response where
  stop_reason : String
  content : List ContentBlock

/-- Execute every tool_use block of a response, in order. -/
def extractRecords (resp : Response)
    (dataframes : List (String × DataFrame)) : List ToolCallRecord :=
  resp.content.filterMap (fun b =>
    match b with
    | ContentBlock.tool_use _ name input =>
        some ⟨name, input, execute_tool name input dataframes⟩
    | _ => Option.none)

/-- The outcome of the tool-calling loop: the accumulated records and the
number of LLM rounds actually issued. -/
structure LoopOut where
  records : List ToolCallRecord
  llmCalls : Nat

/-- The `for round_num in range(self.max_tool_rounds)` loop of
`_tool_mode_analysis`.  The LLM transport is a function from the round
index to a response (the message history is a function of the earlier
responses, so quantifying over `llm` covers every history-dependent
model).  `end_turn` and any unexpected stop reason break; `tool_use`
executes the requested tools and accumulates the results. -/
def toolLoopGo (llm : Nat → Response)
    (dataframes : List (String × DataFrame)) :
    Nat → Nat → List ToolCallRecord → Nat → LoopOut
  | 0, _, acc, calls => ⟨acc, calls⟩
  | Nat.succ fuel, round, acc, calls =>
      let resp := llm round
      if resp.stop_reason = "end_turn" then ⟨acc, calls + 1⟩
      else if resp.stop_reason = "tool_use" then
        toolLoopGo llm dataframes fuel (round + 1)
          (acc ++ extractRecords resp dataframes) (calls + 1)
      else ⟨acc, calls + 1⟩

/-- The tool-calling loop started from round 0 with an empty
accumulator. -/
def toolLoop (llm : Nat → Response)
    (dataframes : List (String × DataFrame)) (maxRounds : Nat) : LoopOut :=
  toolLoopGo llm dataframes maxRounds 0 [] 0

/-- `result.get(k, default)`. -/
def dictGet (d : PyDict) (k : String) (dflt : Py) : Py :=
  (d.lookup k).getD dflt

/-- A dictionary value read where the source expects a string
(`result.get('category_column', 'Categories')`). -/
def strGet (d : PyDict) (k : String) (dflt : String) : String :=
  match d.lookup k with
  | some (Py.str s) => s
  | _ => dflt

/-- `result.get(k, 0)` rendered into an f-string (the values are ints in
every reachable dictionary). -/
def intGetStr (d : PyDict) (k : String) : String :=
  match d.lookup k with
  | some (Py.int n) => toString n
  | _ => "0"

/-- `tool_result["input"].get(k, "")` for `related_columns`. -/
def strArgRelated (args : PyDict) (k : String) : String :=
  match args.lookup k with
  | some (Py.str s) => s
  | _ => ""

/-- A dictionary value coerced to the `KPI.value` float (pydantic float
coercion; every reachable value is already a float or an int). -/
def asPyFloat (v : Py) : PyFloat :=
  match v with
  | Py.float x => x
  | Py.int n => PyFloat.val n
  | _ => PyFloat.nan

/-- The fact-conversion step of `_tool_mode_analysis` for one
accumulated record: results holding an `error` key are skipped outright;
otherwise a fixed per-tool mapping produces KPIs and tables. -/
def convertRecord (r : ToolCallRecord) : List KPI × List NamedTable :=
  if hasError r.result then ([], [])
  else if r.tool = "compute_revenue_summary" then
    ((if (r.result.lookup "total_revenue").isSome then
        [⟨"Total Revenue", asPyFloat (dictGet r.result "total_revenue" (Py.int 0)),
          "Total revenue from all transactions",
          [strArgRelated r.input "amount_column"]⟩] else []) ++
     (if (r.result.lookup "average_revenue").isSome then
        [⟨"Average Revenue", asPyFloat (dictGet r.result "average_revenue" (Py.int 0)),
          "Average revenue per transaction",
          [strArgRelated r.input "amount_column"]⟩] else []), [])
  else if r.tool = "analyze_top_categories" then
    ([],
     match r.result.lookup "top_categories" with
     | some (Py.list xs) =>
        [⟨"Top " ++ strGet r.result "category_column" "Categories",
          ["Category", "Total"],
          xs.map (fun x =>
            match x with
            | Py.dict kv => [dictGet kv "category" (Py.str ""),
                             dictGet kv "total" (Py.float PyFloat.nan)]
            | _ => []),
          some ("Top categories by " ++ strGet r.result "metric_column" "metric")⟩]
     | _ => [])
  else if r.tool = "calculate_churn_metrics" then
    ((if (r.result.lookup "churn_rate").isSome then
        [⟨"Churn Rate", asPyFloat (dictGet r.result "churn_rate" (Py.int 0)),
          intGetStr r.result "churned_customers" ++ " out of " ++
            intGetStr r.result "total_customers" ++ " customers churned",
          [strArgRelated r.input "churn_column"]⟩] else []), [])
  else if r.tool = "calculate_customer_ltv" then
    ((if (r.result.lookup "average_ltv").isSome then
        [⟨"Average Customer LTV", asPyFloat (dictGet r.result "average_ltv" (Py.int 0)),
          "Average lifetime value across " ++
            intGetStr r.result "customer_count" ++ " customers",
          [strArgRelated r.input "ltv_column"]⟩] else []),
     [⟨"Customer Lifetime Value Distribution", ["Metric", "Value"],
       [[Py.str "Average", dictGet r.result "average_ltv" (Py.int 0)],
        [Py.str "Median", dictGet r.result "median_ltv" (Py.int 0)],
        [Py.str "Total", dictGet r.result "total_ltv" (Py.int 0)],
        [Py.str "Min", dictGet r.result "min_ltv" (Py.int 0)],
        [Py.str "Max", dictGet r.result "max_ltv" (Py.int 0)]],
       some "LTV statistics"⟩])
  else if r.tool = "compute_time_series" then
    ([],
     match r.result.lookup "time_series" with
     | some (Py.list xs) =>
        if xs.isEmpty then []
        else
          [⟨"Time Series: " ++ strGet r.result "metric" "Metric",
            ["Period", "Value"],
            (xs.take 10).map (fun x =>
              match x with
              | Py.dict kv => [dictGet kv "period" (Py.str ""),
                               dictGet kv "value" (Py.float PyFloat.nan)]
              | _ => []),
            some ("Time series aggregated by " ++ strGet r.result "period_type" "period")⟩]
     | _ => [])
  else ([], [])

/-- Fact conversion over the whole accumulator, preserving order. -/
def convertResults : List ToolCallRecord → List KPI × List NamedTable
  | [] => ([], [])
  | r :: rs =>
      let h := convertRecord r
      let t := convertResults rs
      (h.1 ++ t.1, h.2 ++ t.2)

/-- `DataAnalystAgent._tool_mode_analysis`: run the bounded loop, then
convert the accumulator into facts; returns
`AnalysisResult(plan=plan, kpis=kpis, tables=tables)` (charts empty,
notes and metadata unset).  Prompt construction is not modelled — the
LLM transport is universally quantified. -/
def tool_mode_analysis (llm : Nat → Response) (plan : AnalysisPlan)
    (dataframes : List (String × DataFrame)) (maxRounds : Nat) :
    AnalysisResult :=
  let out := toolLoop llm dataframes maxRounds
  let facts := convertResults out.records
  ⟨plan, facts.1, facts.2, [], Option.none, Option.none⟩

/-! ## agents/qa_agent.py -/

/-- The `QA_PROMPT` system prompt of the Q&A agent (verbatim content is
irrelevant to the claims; it is passed to the LLM transport). -/
def QA_PROMPT : String :=
  "You are a professional data analyst answering follow-up questions about an analysis you just completed."

/-- A Python float rendered for the context string (the
thousand-separator / decimal-count f-string formatting of the source is
abstracted; no claim observes it). -/
def pyFloatStr (x : PyFloat) : String :=
  match x with
  | PyFloat.nan => "nan"
  | PyFloat.val q => if q.den = 1 then toString q.num else toString q

/-- One `filename: measures: ... | dimensions: ...` line of
`_build_context` (role buckets in the fixed order, 5 columns shown per
role with a `(+N more)` marker). -/
def roleGroupLine (filename : String) (roles : List (String × ColumnRole)) :
    Option String :=
  let groups := ["measure", "dimension", "time", "text"].map (fun role =>
    (role, (roles.filter (fun p => decide (p.2.role = role))).map Prod.fst))
  let parts := groups.filterMap (fun p =>
    if p.2.isEmpty then Option.none
    else
      let cols := p.2.take 5 ++
        (if p.2.length > 5 then ["(+" ++ toString (p.2.length - 5) ++ " more)"] else [])
      some (p.1 ++ "s: " ++ String.intercalate ", " cols))
  if parts.isEmpty then Option.none
  else some ("  " ++ filename ++ ": " ++ String.intercalate " | " parts)

/-- `QAAgent._build_context`: compact context from the analysis result —
plan title and objectives, role-grouped columns, top-10 KPIs, first 5
tables.  Numeric formatting is abstracted by `pyFloatStr`. -/
def build_context (ar : AnalysisResult)
    (column_roles : Option (List (String × List (String × ColumnRole)))) :
    String :=
  let planLines :=
    ["Analysis: " ++ ar.plan.title] ++
    (if ar.plan.objectives.isEmpty then []
     else ["Objectives: " ++ String.intercalate ", " (ar.plan.objectives.take 3)])
  let roleLines :=
    match column_roles with
    | Option.none => []
    | some rs =>
        if rs.isEmpty then []
        else "\nData structure:" :: rs.filterMap (fun p => roleGroupLine p.1 p.2)
  let kpiLines :=
    if ar.kpis.isEmpty then []
    else
      ("\nKey metrics:" ::
        (ar.kpis.take 10).map (fun k =>
          "  - " ++ k.name ++ ": " ++ pyFloatStr k.value ++ " (" ++ k.explanation ++ ")")) ++
      (if ar.kpis.length > 10 then
        ["  (and " ++ toString (ar.kpis.length - 10) ++ " more metrics)"] else [])
  let tableLines :=
    if ar.tables.isEmpty then []
    else
      ("\nAnalysis tables:" ::
        (ar.tables.take 5).flatMap (fun t =>
          ["  - " ++ t.title ++ ": " ++ toString t.rows.length ++ " rows, columns: " ++
            String.intercalate ", " t.columns] ++
          (match t.description with
           | some d => ["    (" ++ d ++ ")"]
           | Option.none => []))) ++
      (if ar.tables.length > 5 then
        ["  (and " ++ toString (ar.tables.length - 5) ++ " more tables)"] else [])
  String.intercalate "\n" (planLines ++ roleLines ++ kpiLines ++ tableLines)

/-- The answer and the number of LLM invocations made while producing
it. -/
structure QAOutcome where
  answer : String
  llmCalls : Nat

/-- `QAAgent.answer_question`: empty or whitespace-only questions
(`not question or not question.strip()`) short-circuit with the fixed
prompt-for-input message and no LLM call; otherwise one `llm_client.chat`
call is made on the built context and the reply is stripped. -/
def answer_question (llmChat : String → String → String) (question : String)
    (analysis_result : AnalysisResult)
    (column_roles : Option (List (String × List (String × ColumnRole)))) :
    QAOutcome :=
  if question = "" ∨ pyStrip question = "" then
    ⟨"Please provide a question.", 0⟩
  else
    let context := build_context analysis_result column_roles
    let user_message :=
      "Analysis context:\n" ++ context ++ "\n\nUser question: " ++ question ++
      "\n\nProvide a concise, professional answer based only on the analysis results shown above."
    ⟨pyStrip (llmChat QA_PROMPT user_message), 1⟩

/-! ## Concrete fixtures used by the witnesses -/

/-- The four-row churn column of the spec's testable property. -/
def exChurnDf : DataFrame :=
  ⟨[("is_churned",
     [some (Val.bool true), some (Val.bool false),
      some (Val.bool true), some (Val.bool true)])]⟩

/-- The `{a:10, a:5, b:1}` category example of the spec. -/
def exCatDf : DataFrame :=
  ⟨[("cat", [some (Val.str "a"), some (Val.str "a"), some (Val.str "b")]),
    ("val", [some (Val.num 10), some (Val.num 5), some (Val.num 1)])]⟩

/-- An amount column in which no value parses as numeric. -/
def exRevDf : DataFrame :=
  ⟨[("amt", [some (Val.str "abc"), Option.none])]⟩

/-- A category/metric pair whose metric holds a non-numeric string. -/
def exBadMetricDf : DataFrame :=
  ⟨[("cat", [some (Val.str "a")]), ("val", [some (Val.str "oops")])]⟩

/-- A trivial plan. -/
def exPlan : AnalysisPlan :=
  ⟨"Quarterly revenue review", ["understand revenue"], []⟩

/-- A minimal analysis result. -/
def exAnalysisResult : AnalysisResult :=
  ⟨exPlan, [], [], [], Option.none, Option.none⟩

/-- An LLM that requests tools in every round. -/
def exLLMAlwaysTools : Nat → Response :=
  fun _ => ⟨"tool_use", []⟩

/-- A chat transport whose replies are constant. -/
def exChat : String → String → String :=
  fun _ _ => "an answer"

/-- A two-file input directory (one CSV, one other file). -/
def exFs : FileSystem :=
  ⟨[("orders.csv", [111, 107]), ("notes.txt", [110])]⟩

/-- A stub CSV parser for the provenance fixture. -/
def exParse : Bytes → DataFrame :=
  fun b => ⟨[("raw", (b.map (fun n => some (Val.num n))))]⟩

/-- A stub digest function for the provenance fixture. -/
def exSha : Bytes → String :=
  fun b => "digest-" ++ toString b.length

/-! # Theorems

Shared helper lemmas first, then one theorem per claim (with its witness
or counterexample). -/

theorem mem_insertDescBy {α : Type} (key : α → ℚ) (x : α) (l : List α) (a : α) :
    a ∈ insertDescBy key x l ↔ a = x ∨ a ∈ l := by
  induction l with
  | nil => simp [insertDescBy]
  | cons y ys ih =>
      by_cases h : key y ≤ key x
      · simp [insertDescBy, h]
      · simp [insertDescBy, h, ih]
        tauto

theorem length_insertDescBy {α : Type} (key : α → ℚ) (x : α) (l : List α) :
    (insertDescBy key x l).length = l.length + 1 := by
  induction l with
  | nil => rfl
  | cons y ys ih =>
      by_cases h : key y ≤ key x
      · simp [insertDescBy, h]
      · simp [insertDescBy, h, ih]

theorem sorted_insertDescBy {α : Type} (key : α → ℚ) (x : α) (l : List α)
    (hl : l.Sorted (fun a b => key b ≤ key a)) :
    (insertDescBy key x l).Sorted (fun a b => key b ≤ key a) := by
  induction l with
  | nil => simp [insertDescBy]
  | cons y ys ih =>
      rw [List.sorted_cons] at hl
      by_cases h : key y ≤ key x
      · rw [insertDescBy, if_pos h, List.sorted_cons]
        refine ⟨?_, by rw [List.sorted_cons]; exact hl⟩
        intro b hb
        rcases List.mem_cons.mp hb with hb | hb
        · exact hb ▸ h
        · exact le_trans (hl.1 b hb) h
      · rw [insertDescBy, if_neg h, List.sorted_cons]
        refine ⟨?_, ih hl.2⟩
        intro b hb
        rcases (mem_insertDescBy key x ys b).mp hb with hb | hb
        · exact hb ▸ le_of_lt (lt_of_not_le h)
        · exact hl.1 b hb

theorem mem_sortDescBy {α : Type} (key : α → ℚ) (l : List α) (a : α) :
    a ∈ sortDescBy key l ↔ a ∈ l := by
  induction l with
  | nil => simp [sortDescBy]
  | cons y ys ih => simp [sortDescBy, mem_insertDescBy, ih]

theorem length_sortDescBy {α : Type} (key : α → ℚ) (l : List α) :
    (sortDescBy key l).length = l.length := by
  induction l with
  | nil => rfl
  | cons y ys ih => simp [sortDescBy, length_insertDescBy, ih]

theorem sorted_sortDescBy {α : Type} (key : α → ℚ) (l : List α) :
    (sortDescBy key l).Sorted (fun a b => key b ≤ key a) := by
  induction l with
  | nil => simp [sortDescBy]
  | cons y ys ih => exact sorted_insertDescBy key y _ ih

theorem convertRecord_error (r : ToolCallRecord)
    (h : hasError r.result = true) : convertRecord r = ([], []) := by
  simp [convertRecord, h]

theorem convertResults_skips_errors (rs : List ToolCallRecord) :
    convertResults rs =
      convertResults (rs.filter (fun r => ! hasError r.result)) := by
  induction rs with
  | nil => rfl
  | cons r rs ih =>
      by_cases h : hasError r.result
      · simp [convertResults, List.filter_cons, h, convertRecord_error r h, ih]
      · simp only [convertResults, List.filter_cons, h]
        simp [convertResults, ih]

theorem convertResults_all_errors (rs : List ToolCallRecord)
    (h : ∀ r ∈ rs, hasError r.result = true) : convertResults rs = ([], []) := by
  induction rs with
  | nil => rfl
  | cons r rs ih =>
      simp [convertResults, convertRecord_error r (h r (by simp)),
        ih (fun x hx => h x (by simp [hx]))]

theorem lookup_eq_of_mem {β : Type} (l : List (String × β)) (k : String) (b : β)
    (hmem : (k, b) ∈ l) (hnd : (l.map Prod.fst).Nodup) : l.lookup k = some b := by
  induction l with
  | nil => cases hmem
  | cons p ps ih =>
      rcases List.mem_cons.mp hmem with h | h
      · rw [← h]
        simp [List.lookup]
      · have hk : k ≠ p.1 := by
          intro he
          have : k ∈ ps.map Prod.fst := by
            exact List.mem_map.mpr ⟨(k, b), h, rfl⟩
          rw [List.map_cons, List.nodup_cons] at hnd
          exact hnd.1 (he ▸ this)
        have hbeq : (k == p.1) = false := beq_eq_false_iff_ne.mpr hk
        rw [List.lookup]
        simp only [hbeq]
        exact ih h (by
          rw [List.map_cons, List.nodup_cons] at hnd
          exact hnd.2)

theorem toolLoopGo_llmCalls_le (llm : Nat → Response)
    (dfs : List (String × DataFrame)) :
    ∀ (fuel round : Nat) (acc : List ToolCallRecord) (calls : Nat),
      (toolLoopGo llm dfs fuel round acc calls).llmCalls ≤ calls + fuel := by
  intro fuel
  induction fuel with
  | zero => intro round acc calls; simp [toolLoopGo]
  | succ n ih =>
      intro round acc calls
      rw [toolLoopGo]
      split
      · simp only [LoopOut.llmCalls]
        omega
      · split
        · exact le_trans (ih (round + 1) _ (calls + 1)) (by omega)
        · simp only [LoopOut.llmCalls]
          omega

theorem toolLoopGo_llmCalls_exact (llm : Nat → Response)
    (dfs : List (String × DataFrame))
    (h : ∀ n, (llm n).stop_reason = "tool_use") :
    ∀ (fuel round : Nat) (acc : List ToolCallRecord) (calls : Nat),
      (toolLoopGo llm dfs fuel round acc calls).llmCalls = calls + fuel := by
  intro fuel
  induction fuel with
  | zero => intro round acc calls; simp [toolLoopGo]
  | succ n ih =>
      intro round acc calls
      rw [toolLoopGo]
      rw [if_neg (by simp [h round]), if_pos (by simp [h round])]
      rw [ih (round + 1) (acc ++ extractRecords (llm round) dfs) (calls + 1)]
      omega

/-- C1: the spec requires `analysis_summary.json` to be a full
serialization of AnalysisResult carrying a populated `column_roles`
component.  The code cannot produce that artifact: `models.AnalysisResult`
declares no `column_roles` field, `models.py` defines no `ColumnRole`
class at all, pydantic rejects the orchestrator's
`analysis_result.column_roles = column_roles` assignment with a
`ValueError`, and `model_dump()` of any AnalysisResult emits exactly the
six declared fields — never a `column_roles` key. -/
theorem C1_artifact_lacks_column_roles :
    runPipelineStoreColumnRoles =
      Except.error "\"AnalysisResult\" object has no field \"column_roles\"" ∧
    analysisResultFields.contains "column_roles" = false ∧
    modelsPyClasses.contains "ColumnRole" = false ∧
    ∀ r : AnalysisResult,
      (analysisResultModelDump r).map Prod.fst = analysisResultFields ∧
      ((analysisResultModelDump r).lookup "column_roles").isNone = true :=
  ⟨rfl, by decide, by decide, fun r => ⟨rfl, rfl⟩⟩

/-- Instantiation of the universally quantified part of the C1 theorem
at a concrete AnalysisResult. -/
theorem C1_artifact_lacks_column_roles_witness :
    (analysisResultModelDump exAnalysisResult).map Prod.fst = analysisResultFields ∧
    ((analysisResultModelDump exAnalysisResult).lookup "column_roles").isNone = true :=
  C1_artifact_lacks_column_roles.2.2.2 exAnalysisResult

/-- C2 counterexample: `user_id` matches the identifier pattern, yet a
numeric `user_id` column with two distinct values is classified
`categorical` (the ≤2-distinct-values rule fires before the id-name
rule), contradicting "classified as 'text' regardless of the column's
cardinality". -/
theorem C2_counterexample_low_cardinality_id :
    isIdName "user_id" = true ∧
    infer_dtype ⟨PandasDtype.numeric, [some (Val.num 1), some (Val.num 2)]⟩
      "user_id" = "categorical" ∧
    infer_dtype ⟨PandasDtype.numeric, [some (Val.num 1), some (Val.num 2)]⟩
      "user_id" ≠ "text" :=
  ⟨by decide, by decide, by decide⟩

/-- C2 amended: for every column whose name ends in `id`
(case-insensitive) or contains `_id`, `infer_dtype` classifies an
object-dtype column as `text`, and a numeric-dtype column as `text`
unless it has at most 2 distinct non-null values, in which case the
boolean-flag rule takes priority and yields `categorical`. -/
theorem C2_id_columns_amended (s : Series) (name : String)
    (hid : isIdName name = true) :
    (s.dtype = PandasDtype.object → infer_dtype s name = "text") ∧
    (s.dtype = PandasDtype.numeric →
      infer_dtype s name =
        if nuniqueS s ≤ 2 then "categorical" else "text") := by
  have hcond : strContains (strToLower name) "_id" = true ∨
      strEndsWith (strToLower name) "id" = true := by
    have h := hid
    unfold isIdName at h
    exact (Bool.or_eq_true _ _).mp h
  constructor
  · intro hdt
    rcases hcond with hc | hc
    · simp [infer_dtype, hdt, hc]
    · simp [infer_dtype, hdt, hc]
  · intro hdt
    by_cases h2 : nuniqueS s ≤ 2
    · simp [infer_dtype, hdt, h2]
    · rcases hcond with hc | hc
      · simp [infer_dtype, hdt, h2, hc]
      · simp [infer_dtype, hdt, h2, hc]

/-- Instantiation of the amended C2 theorem on concrete id-named
columns. -/
theorem C2_id_columns_amended_witness :
    infer_dtype ⟨PandasDtype.object, [some (Val.str "x")]⟩ "user_id" = "text" ∧
    infer_dtype ⟨PandasDtype.numeric,
      [some (Val.num 1), some (Val.num 2), some (Val.num 3), some (Val.num 3)]⟩
      "user_id" = "text" :=
  ⟨(C2_id_columns_amended ⟨PandasDtype.object, [some (Val.str "x")]⟩ "user_id"
      (by decide)).1 rfl,
   by
    have h := (C2_id_columns_amended ⟨PandasDtype.numeric,
      [some (Val.num 1), some (Val.num 2), some (Val.num 3), some (Val.num 3)]⟩
      "user_id" (by decide)).2 rfl
    rw [h]
    decide⟩

/-- C6: every numeric column with at most 2 distinct non-null values is
classified `categorical` by `infer_dtype` — never `numeric` — whatever
the column name. -/
theorem C6_low_cardinality_numeric_is_categorical (s : Series)
    (name : String) (hdt : s.dtype = PandasDtype.numeric)
    (h2 : nuniqueS s ≤ 2) :
    infer_dtype s name = "categorical" := by
  simp [infer_dtype, hdt, h2]

/-- Instantiation of C6 on a concrete 0/1 flag column. -/
theorem C6_low_cardinality_numeric_is_categorical_witness :
    infer_dtype ⟨PandasDtype.numeric,
      [some (Val.num 0), some (Val.num 1), some (Val.num 0)]⟩
      "flag" = "categorical" :=
  C6_low_cardinality_numeric_is_categorical
    ⟨PandasDtype.numeric, [some (Val.num 0), some (Val.num 1), some (Val.num 0)]⟩
    "flag" rfl (by decide)

/-- C9: for every analysis result and column-role map, `answer_question`
on an empty or whitespace-only question (Python's
`not question or not question.strip()`) returns the fixed
"Please provide a question." message with zero LLM invocations. -/
theorem C9_empty_question_short_circuits
    (llmChat : String → String → String) (question : String)
    (ar : AnalysisResult)
    (roles : Option (List (String × List (String × ColumnRole))))
    (h : pyStrip question = "") :
    answer_question llmChat question ar roles =
      ⟨"Please provide a question.", 0⟩ := by
  unfold answer_question
  rw [if_pos (Or.inr h)]

/-- Instantiation of C9 on a whitespace-only question. -/
theorem C9_empty_question_short_circuits_witness :
    answer_question exChat "   " exAnalysisResult Option.none =
      ⟨"Please provide a question.", 0⟩ :=
  C9_empty_question_short_circuits exChat "   " exAnalysisResult Option.none
    (by decide)

/-- C8: `calculate_churn_metrics` boolean-coerces the churn column and
returns total/churned/active counts and the churn rate on the 0–100
percentage scale; on `[True, False, True, True]` it yields total 4,
churned 3, active 1, churn_rate 75.0. -/
theorem C8_churn_metrics (df : DataFrame) (col : String)
    (h : df.hasCol col = true) :
    calculate_churn_metrics df col =
      [("total_customers", Py.int ((df.getCol col).length)),
       ("churned_customers",
        Py.int (((df.getCol col).map pyTruthyCell).count true)),
       ("active_customers",
        Py.int (((df.getCol col).length : Int) -
          ((((df.getCol col).map pyTruthyCell).count true : Nat) : Int))),
       ("churn_rate", Py.float (PyFloat.val
         (if (df.getCol col).length > 0 then
            ((((df.getCol col).map pyTruthyCell).count true : Nat) : ℚ) /
              (((df.getCol col).length : Nat) : ℚ) * 100
          else 0)))] ∧
    calculate_churn_metrics exChurnDf "is_churned" =
      [("total_customers", Py.int 4),
       ("churned_customers", Py.int 3),
       ("active_customers", Py.int 1),
       ("churn_rate", Py.float (PyFloat.val 75))] := by
  constructor
  · simp [calculate_churn_metrics, h]
  · rfl

/-- Instantiation of C8 on the spec's example column. -/
theorem C8_churn_metrics_witness :
    calculate_churn_metrics exChurnDf "is_churned" =
      [("total_customers", Py.int 4),
       ("churned_customers", Py.int 3),
       ("active_customers", Py.int 1),
       ("churn_rate", Py.float (PyFloat.val 75))] :=
  (C8_churn_metrics exChurnDf "is_churned" (by decide)).2

/-- C10: on a present amount column in which no value parses as numeric,
`compute_revenue_summary` returns count 0, total 0.0 and NaN
mean/median/min/max with no `error` key, and the engine's fact
conversion still emits the "Total Revenue" (0.0) and "Average Revenue"
(NaN) KPIs from that result instead of skipping it. -/
theorem C10_unparseable_revenue_still_yields_kpis (df : DataFrame)
    (col : String) (input : PyDict)
    (hcol : df.hasCol col = true)
    (hempty : toNumericDropna (df.getCol col) = []) :
    hasError (compute_revenue_summary df col) = false ∧
    compute_revenue_summary df col =
      [("total_revenue", Py.float (PyFloat.val 0)),
       ("average_revenue", Py.float PyFloat.nan),
       ("median_revenue", Py.float PyFloat.nan),
       ("min_revenue", Py.float PyFloat.nan),
       ("max_revenue", Py.float PyFloat.nan),
       ("count", Py.int 0)] ∧
    convertRecord ⟨"compute_revenue_summary", input,
        compute_revenue_summary df col⟩ =
      ([⟨"Total Revenue", PyFloat.val 0, "Total revenue from all transactions",
          [strArgRelated input "amount_column"]⟩,
        ⟨"Average Revenue", PyFloat.nan, "Average revenue per transaction",
          [strArgRelated input "amount_column"]⟩], []) := by
  have hr : compute_revenue_summary df col =
      [("total_revenue", Py.float (PyFloat.val 0)),
       ("average_revenue", Py.float PyFloat.nan),
       ("median_revenue", Py.float PyFloat.nan),
       ("min_revenue", Py.float PyFloat.nan),
       ("max_revenue", Py.float PyFloat.nan),
       ("count", Py.int 0)] := by
    simp [compute_revenue_summary, hcol, hempty, pyMean, pyMedian,
      pyMinimum, pyMaximum]
  rw [hr]
  exact ⟨rfl, rfl, rfl⟩

/-- Instantiation of C10 on a column holding only an unparseable string
and a missing value. -/
theorem C10_unparseable_revenue_still_yields_kpis_witness :
    convertRecord ⟨"compute_revenue_summary",
        [("dataframe_name", Py.str "sales"), ("amount_column", Py.str "amt")],
        compute_revenue_summary exRevDf "amt"⟩ =
      ([⟨"Total Revenue", PyFloat.val 0, "Total revenue from all transactions",
          ["amt"]⟩,
        ⟨"Average Revenue", PyFloat.nan, "Average revenue per transaction",
          ["amt"]⟩], []) :=
  (C10_unparseable_revenue_still_yields_kpis exRevDf "amt"
    [("dataframe_name", Py.str "sales"), ("amount_column", Py.str "amt")]
    (by decide) (by decide)).2.2

/-- C7: `analyze_top_categories` group-sums the metric per category,
ranks the totals descending and truncates to `top_n` (sum-then-rank):
every reported pair is a (stringified key, group total), totals are
sorted descending and at most `top_n` of the categories are kept; on
rows `{a:10, a:5, b:1}` with `top_n = 5` the top category is `a` with
total 15. -/
theorem C7_top_categories_sum_then_rank :
    (∀ (df : DataFrame) (c m : String) (n : Nat),
      df.hasCol c = true → df.hasCol m = true →
      (keptRows df c m).any (fun r => metricIsBad r.2) = false →
      analyze_top_categories df c m n =
        [("top_categories", Py.list ((topCats df c m n).map (fun p =>
            Py.dict [("category", Py.str p.1),
                     ("total", Py.float (PyFloat.val p.2))]))),
         ("category_column", Py.str c), ("metric_column", Py.str m)] ∧
      List.Sorted (fun a b => b.2 ≤ a.2) (topCats df c m n) ∧
      (topCats df c m n).length = min n (groupKeys df c m).length ∧
      (∀ p ∈ topCats df c m n, ∃ k ∈ groupKeys df c m,
        p.1 = pyStrVal k ∧ p.2 = groupTotal df c m k)) ∧
    analyze_top_categories exCatDf "cat" "val" 5 =
      [("top_categories", Py.list
         [Py.dict [("category", Py.str "a"), ("total", Py.float (PyFloat.val 15))],
          Py.dict [("category", Py.str "b"), ("total", Py.float (PyFloat.val 1))]]),
       ("category_column", Py.str "cat"), ("metric_column", Py.str "val")] ∧
    (topCats exCatDf "cat" "val" 5).headD ("", 0) = ("a", 15) := by
  refine ⟨?_, rfl, rfl⟩
  intro df c m n hc hm hbad
  refine ⟨by simp [analyze_top_categories, hc, hm, hbad], ?_, ?_, ?_⟩
  · exact List.Pairwise.sublist (List.take_sublist n _)
      (sorted_sortDescBy Prod.snd _)
  · unfold topCats
    rw [List.length_take, length_sortDescBy, List.length_map]
  · intro p hp
    have hp1 : p ∈ sortDescBy Prod.snd
        ((groupKeys df c m).map (fun k => (pyStrVal k, groupTotal df c m k))) :=
      List.mem_of_mem_take hp
    rcases List.mem_map.mp ((mem_sortDescBy _ _ _).mp hp1) with ⟨k, hk, hkp⟩
    exact ⟨k, hk, by rw [← hkp], by rw [← hkp]⟩

/-- Instantiation of the general part of C7 on the spec's example
rows. -/
theorem C7_top_categories_sum_then_rank_witness :
    List.Sorted (fun a b => b.2 ≤ a.2) (topCats exCatDf "cat" "val" 5) ∧
    (topCats exCatDf "cat" "val" 5).length =
      min 5 (groupKeys exCatDf "cat" "val").length :=
  ⟨(C7_top_categories_sum_then_rank.1 exCatDf "cat" "val" 5
      (by decide) (by decide) (by decide)).2.1,
   (C7_top_categories_sum_then_rank.1 exCatDf "cat" "val" 5
      (by decide) (by decide) (by decide)).2.2.1⟩

/-- C5: for every run (static filesystem, digest function and CSV parser
abstracted as parameters), each stored input-file profile carries the
digest of exactly the bytes of that file on disk: the profiles list the
loaded files in order, and `profile.sha256 = sha256(bytes of that
file)`. -/
theorem C5_provenance_digests (parse : Bytes → DataFrame)
    (sha256 : Bytes → String) (fs : FileSystem)
    (dfs : List (String × DataFrame))
    (hnd : (fs.files.map Prod.fst).Nodup)
    (hload : load_csvs parse fs = Except.ok dfs) :
    (summarize_input_files sha256 dfs fs).map (fun p => p.filename) =
      dfs.map Prod.fst ∧
    ∀ p ∈ summarize_input_files sha256 dfs fs,
      ∃ b, fs.files.lookup p.filename = some b ∧ p.sha256 = sha256 b := by
  have hdfs : dfs = loadList parse fs := by
    unfold load_csvs at hload
    by_cases he : (loadList parse fs).isEmpty
    · rw [if_pos he] at hload
      cases hload
    · rw [if_neg he] at hload
      exact ((Except.ok.injEq _ _).mp hload).symm
  constructor
  · unfold summarize_input_files
    rw [List.map_map]
    apply List.map_congr_left
    intro q _
    cases hfq : fs.files.lookup q.1 <;> simp [hfq]
  · intro p hp
    unfold summarize_input_files at hp
    rcases List.mem_map.mp hp with ⟨q, hq, hpq⟩
    rw [hdfs] at hq
    rcases List.mem_filterMap.mp hq with ⟨a, ha, hif⟩
    by_cases hcsv : strEndsWith a.1 ".csv"
    · rw [if_pos hcsv] at hif
      have hq2 : q = (a.1, parse a.2) := ((Option.some.injEq _ _).mp hif).symm
      have hmem : (a.1, a.2) ∈ fs.files := by simpa using ha
      have hlook : fs.files.lookup a.1 = some a.2 :=
        lookup_eq_of_mem fs.files a.1 a.2 hmem hnd
      refine ⟨a.2, ?_, ?_⟩
      · rw [← hpq, hq2]
        simp [hlook]
      · rw [← hpq, hq2]
        simp [hlook]
    · rw [if_neg hcsv] at hif
      cases hif

/-- Instantiation of C5 on a concrete two-file directory. -/
theorem C5_provenance_digests_witness :
    (summarize_input_files exSha (loadList exParse exFs) exFs).map
        (fun p => p.filename) =
      (loadList exParse exFs).map Prod.fst ∧
    ∀ p ∈ summarize_input_files exSha (loadList exParse exFs) exFs,
      ∃ b, exFs.files.lookup p.filename = some b ∧ p.sha256 = exSha b :=
  C5_provenance_digests exParse exSha exFs (loadList exParse exFs)
    (by decide) rfl

/-- C4: the tool-calling loop performs at most `maxRounds` LLM rounds
and terminates even for a model that requests tools every round (in
which case exactly `maxRounds` rounds run); reaching the cap is not an
error — the accumulated results are still converted to facts, and when
every accumulated result failed (or none exists) the engine returns an
AnalysisResult with empty kpis and tables rather than a failure. -/
theorem C4_loop_bounded_and_graceful :
    (∀ (llm : Nat → Response) (dfs : List (String × DataFrame))
       (maxRounds : Nat),
       (toolLoop llm dfs maxRounds).llmCalls ≤ maxRounds) ∧
    (∀ (llm : Nat → Response) (plan : AnalysisPlan)
       (dfs : List (String × DataFrame)) (maxRounds : Nat),
       (∀ n, (llm n).stop_reason = "tool_use") →
       (toolLoop llm dfs maxRounds).llmCalls = maxRounds ∧
       tool_mode_analysis llm plan dfs maxRounds =
         ⟨plan, (convertResults (toolLoop llm dfs maxRounds).records).1,
                (convertResults (toolLoop llm dfs maxRounds).records).2,
                [], Option.none, Option.none⟩) ∧
    (∀ (llm : Nat → Response) (plan : AnalysisPlan)
       (dfs : List (String × DataFrame)) (maxRounds : Nat),
       (∀ r ∈ (toolLoop llm dfs maxRounds).records,
          hasError r.result = true) →
       tool_mode_analysis llm plan dfs maxRounds =
         ⟨plan, [], [], [], Option.none, Option.none⟩) := by
  refine ⟨?_, ?_, ?_⟩
  · intro llm dfs maxRounds
    simpa using toolLoopGo_llmCalls_le llm dfs maxRounds 0 [] 0
  · intro llm plan dfs maxRounds h
    constructor
    · simpa using toolLoopGo_llmCalls_exact llm dfs h maxRounds 0 [] 0
    · rfl
  · intro llm plan dfs maxRounds h
    have hconv := convertResults_all_errors _ h
    unfold tool_mode_analysis
    simp only []
    rw [hconv]

/-- Instantiation of C4 on an LLM that requests tools in every round
(of which none succeed, the requests being empty). -/
theorem C4_loop_bounded_and_graceful_witness :
    (toolLoop exLLMAlwaysTools [] 3).llmCalls = 3 ∧
    tool_mode_analysis exLLMAlwaysTools exPlan [] 3 =
      ⟨exPlan, [], [], [], Option.none, Option.none⟩ :=
  ⟨(C4_loop_bounded_and_graceful.2.1 exLLMAlwaysTools exPlan [] 3
      (fun _ => rfl)).1,
   C4_loop_bounded_and_graceful.2.2 exLLMAlwaysTools exPlan [] 3 (by decide)⟩

/-- C3: every tool call returns a dictionary — `execute_tool` is a total
function into dictionaries, and each failure mode (nonexistent
dataframe, unknown tool, missing column, conversion failure on a
non-numeric metric) yields a dictionary carrying an `error` key rather
than an escaping exception; and fact conversion produces no KPI or table
from any record whose result carries an `error` key (dropping all such
records leaves the converted facts unchanged). -/
theorem C3_tool_errors_contained :
    (∀ (tool_name : String) (input : PyDict)
       (dfs : List (String × DataFrame)),
       lookupDf dfs ((input.lookup "dataframe_name").getD (Py.str "")) =
         Option.none →
       hasError (execute_tool tool_name input dfs) = true) ∧
    (∀ (tool_name : String) (input : PyDict)
       (dfs : List (String × DataFrame)) (df : DataFrame),
       lookupDf dfs ((input.lookup "dataframe_name").getD (Py.str "")) =
         some df →
       toolNames.contains tool_name = false →
       hasError (execute_tool tool_name input dfs) = true) ∧
    (∀ (dfs : List (String × DataFrame)) (dname col : String)
       (df : DataFrame),
       dfs.lookup dname = some df → df.hasCol col = false →
       hasError (execute_tool "compute_revenue_summary"
         [("dataframe_name", Py.str dname), ("amount_column", Py.str col)]
         dfs) = true) ∧
    (∀ (dfs : List (String × DataFrame)) (dname c m : String)
       (df : DataFrame),
       dfs.lookup dname = some df → df.hasCol c = true →
       df.hasCol m = true →
       (keptRows df c m).any (fun r => metricIsBad r.2) = true →
       hasError (execute_tool "analyze_top_categories"
         [("dataframe_name", Py.str dname), ("category_column", Py.str c),
          ("metric_column", Py.str m)] dfs) = true) ∧
    (∀ rs : List ToolCallRecord,
       convertResults rs =
         convertResults (rs.filter (fun r => ! hasError r.result))) := by
  have execute_tool_eq : ∀ (tool_name : String) (input : PyDict)
      (dfs : List (String × DataFrame)),
      execute_tool tool_name input dfs =
        match lookupDf dfs ((input.lookup "dataframe_name").getD (Py.str "")) with
        | Option.none =>
            [("error", Py.str ("Dataframe not found. Available: " ++
              String.intercalate ", " (dfs.map Prod.fst)))]
        | some df =>
            if ¬ toolNames.contains tool_name then
              [("error", Py.str ("Unknown tool: " ++ tool_name))]
            else
              match callTool tool_name df
                  (input.filter (fun p => decide (p.1 ≠ "dataframe_name"))) with
              | Except.ok d => d
              | Except.error e =>
                  [("error", Py.str ("Tool execution error: " ++ e))] :=
    fun _ _ _ => rfl
  have execute_tool_found : ∀ (tool_name : String) (input : PyDict)
      (dfs : List (String × DataFrame)) (df : DataFrame),
      lookupDf dfs ((input.lookup "dataframe_name").getD (Py.str "")) =
        some df →
      execute_tool tool_name input dfs =
        (if ¬ toolNames.contains tool_name then
          [("error", Py.str ("Unknown tool: " ++ tool_name))]
        else
          match callTool tool_name df
              (input.filter (fun p => decide (p.1 ≠ "dataframe_name"))) with
          | Except.ok d => d
          | Except.error e =>
              [("error", Py.str ("Tool execution error: " ++ e))]) := by
    intro tool_name input dfs df h
    rw [execute_tool_eq, h]
  refine ⟨?_, ?_, ?_, ?_, convertResults_skips_errors⟩
  · intro tool_name input dfs h
    rw [execute_tool_eq, h]
    rfl
  · intro tool_name input dfs df h hname
    rw [execute_tool_found tool_name input dfs df h,
      if_pos (show ¬ toolNames.contains tool_name = true by
        intro hc
        rw [hname] at hc
        exact Bool.false_ne_true hc)]
    rfl
  · intro dfs dname col df hdf hcol
    rw [execute_tool_found "compute_revenue_summary"
      [("dataframe_name", Py.str dname), ("amount_column", Py.str col)]
      dfs df hdf, if_neg (by decide)]
    have hcall : callTool "compute_revenue_summary" df
        (List.filter (fun p => decide (p.1 ≠ "dataframe_name"))
          [("dataframe_name", Py.str dname), ("amount_column", Py.str col)]) =
        Except.ok (compute_revenue_summary df col) := rfl
    rw [hcall]
    simp [compute_revenue_summary, hcol, hasError]
  · intro dfs dname c m df hdf hc hm hbad
    rw [execute_tool_found "analyze_top_categories"
      [("dataframe_name", Py.str dname), ("category_column", Py.str c),
       ("metric_column", Py.str m)] dfs df hdf, if_neg (by decide)]
    have hcall : callTool "analyze_top_categories" df
        (List.filter (fun p => decide (p.1 ≠ "dataframe_name"))
          [("dataframe_name", Py.str dname), ("category_column", Py.str c),
           ("metric_column", Py.str m)]) =
        Except.ok (analyze_top_categories df c m 5) := rfl
    rw [hcall]
    simp [analyze_top_categories, hc, hm, hbad, hasError]

/-- Instantiation of C3 on concrete failing tool calls: missing
dataframe, unknown tool, missing column and a string-valued metric. -/
theorem C3_tool_errors_contained_witness :
    hasError (execute_tool "compute_revenue_summary"
      [("dataframe_name", Py.str "nope")] [("sales", exRevDf)]) = true ∧
    hasError (execute_tool "made_up_tool"
      [("dataframe_name", Py.str "sales")] [("sales", exRevDf)]) = true ∧
    hasError (execute_tool "compute_revenue_summary"
      [("dataframe_name", Py.str "sales"), ("amount_column", Py.str "missing")]
      [("sales", exRevDf)]) = true ∧
    hasError (execute_tool "analyze_top_categories"
      [("dataframe_name", Py.str "sales"), ("category_column", Py.str "cat"),
       ("metric_column", Py.str "val")] [("sales", exBadMetricDf)]) = true :=
  ⟨C3_tool_errors_contained.1 "compute_revenue_summary"
      [("dataframe_name", Py.str "nope")] [("sales", exRevDf)] rfl,
   C3_tool_errors_contained.2.1 "made_up_tool"
      [("dataframe_name", Py.str "sales")] [("sales", exRevDf)] exRevDf
      rfl (by decide),
   C3_tool_errors_contained.2.2.1 [("sales", exRevDf)] "sales" "missing"
      exRevDf rfl (by decide),
   C3_tool_errors_contained.2.2.2.1 [("sales", exBadMetricDf)] "sales"
      "cat" "val" exBadMetricDf rfl (by decide) (by decide) (by decide)⟩

end CAF
